import Mathlib

/-!
Verification development for the genesis-agents sandbox core: a shallow
embedding of `sandbox/world.py`, `sandbox/commands.py`, `sandbox/breeding.py`
and the persistence skeleton of `sandbox/scheduler.py`, together with
theorems settling the frozen claims about those components.

Modelling conventions
 * Python dicts are ordered association lists (`alGet`/`alSet`/`alErase`
   mirror lookup, insert-or-update-in-place, and `pop`).
 * Heterogeneous dict values (object / agent records) are the inductive
   `PVal`; Python `None` is `PVal.none`, `datetime` values are `PVal.dt`
   carrying their ISO rendering.
 * `uuid4().hex[:8]` is modelled as a fresh-name supply (`freshOid` applied
   to a counter threaded through the interpreter state).
 * `random.*` draws are explicit inputs: `update_environment` takes the
   weather roll and choice index, the interpreter threads an `Rng` stream.
 * Python exceptions are the `Status.exn` outcome; unbounded recursion is
   modelled with fuel, `Status.deep` standing for Python's RecursionError
   (reached at every finite depth exactly when the recursion is unbounded).
-/

/-- Ordered association list lookup: first entry whose key matches, like a
Python dict (whose keys are unique, so first = only). -/
def alGet {κ α : Type} [DecidableEq κ] : List (κ × α) → κ → Option α
  | [], _ => Option.none
  | (k, v) :: rest, key => if k = key then some v else alGet rest key

/-- Dict write `d[k] = v`: update in place if the key exists (keeping its
position, as Python dicts do), else append at the end. -/
def alSet {κ α : Type} [DecidableEq κ] : List (κ × α) → κ → α → List (κ × α)
  | [], key, v => [(key, v)]
  | (k, w) :: rest, key, v =>
      if k = key then (k, v) :: rest else (k, w) :: alSet rest key v

/-- Dict `pop(k)` / `del d[k]`: remove the (first) entry with the key. -/
def alErase {κ α : Type} [DecidableEq κ] : List (κ × α) → κ → List (κ × α)
  | [], _ => []
  | (k, w) :: rest, key => if k = key then rest else (k, w) :: alErase rest key

/-- Python dict merge `a | b`: keys of `a` in order with values overridden
by `b` where present, then the keys of `b` not in `a`, in `b`'s order. -/
def alMerge {κ α : Type} [DecidableEq κ] (a b : List (κ × α)) : List (κ × α) :=
  a.map (fun p => (p.1, (alGet b p.1).getD p.2))
    ++ b.filter (fun p => (alGet a p.1).isNone)

/-- Helper for Python `str.split()`: walk the characters with the current
token accumulated in reverse. -/
def wsSplit : List Char → List Char → List String
  | [], cur => if cur.isEmpty then [] else [String.mk cur.reverse]
  | c :: rest, cur =>
      if c.isWhitespace then
        if cur.isEmpty then wsSplit rest []
        else String.mk cur.reverse :: wsSplit rest []
      else wsSplit rest (c :: cur)

/-- Python `str.split()` (no argument): split on runs of whitespace,
discarding empty pieces. -/
def pySplit (s : String) : List String :=
  wsSplit s.data []

/-- Python `s.strip()`. -/
def pyStrip (s : String) : String :=
  String.mk (((s.data.dropWhile Char.isWhitespace).reverse.dropWhile
    Char.isWhitespace).reverse)

/-- Python `s.lstrip()` (used for the `\s*` part of the directive regex). -/
def pyLStrip (s : String) : String :=
  String.mk (s.data.dropWhile Char.isWhitespace)

/-- Substring occurrence test on character lists. -/
def listContainsSub : List Char → List Char → Bool
  | s, pat =>
      match s with
      | [] => pat.isEmpty
      | _ :: rest => pat.isPrefixOf s || listContainsSub rest pat

/-- Python `sub in s`. -/
def strContains (s sub : String) : Bool :=
  listContainsSub s.data sub.data

/-- First occurrence split on character lists: text before the separator
and text after it. -/
def splitOnceList (sep : List Char) : List Char → Option (List Char × List Char)
  | [] => Option.none
  | c :: rest =>
      if sep.isPrefixOf (c :: rest) then some ([], (c :: rest).drop sep.length)
      else
        match splitOnceList sep rest with
        | some q => some (c :: q.1, q.2)
        | Option.none => Option.none

/-- Python `s.split(sep, 1)` restricted to the two components (callers
guard that `sep` occurs; when it does not, the text is returned whole). -/
def splitOnce (s sep : String) : String × String :=
  match splitOnceList sep.data s.data with
  | some q => (String.mk q.1, String.mk q.2)
  | Option.none => (s, "")

/-- Python `s.upper()` (ASCII, as used for verb keywords). -/
def strUpper (s : String) : String :=
  String.mk (s.data.map Char.toUpper)

/-- Python `s.lower()`. -/
def strLower (s : String) : String :=
  String.mk (s.data.map Char.toLower)

/-- Python `s[:n]`. -/
def strTake (s : String) (n : Nat) : String :=
  String.mk (s.data.take n)

/-- Python `s[n:]`. -/
def strDrop (s : String) (n : Nat) : String :=
  String.mk (s.data.drop n)

/-- Python `s.startswith(pre)`. -/
def strStartsWith (s pre : String) : Bool :=
  pre.data.isPrefixOf s.data

/-- Replacement engine for Python `s.replace(pat, rep)` (leftmost,
non-overlapping), driven by a character budget so the recursion is
structural. -/
def listReplaceF (pat rep : List Char) : Nat → List Char → List Char
  | 0, s => s
  | Nat.succ fuel, s =>
      match s with
      | [] => []
      | c :: rest =>
          if !pat.isEmpty && pat.isPrefixOf s then
            rep ++ listReplaceF pat rep fuel (s.drop pat.length)
          else c :: listReplaceF pat rep fuel rest

/-- Python `s.replace(pat, rep)` for a non-empty pattern. -/
def strReplace (s pat rep : String) : String :=
  String.mk (listReplaceF pat.data rep.data s.data.length s.data)

/-- Splitting on newlines (Python `str.splitlines` for `\n`-separated
text, including a final empty piece after a trailing newline, which the
directive pattern then ignores). -/
def splitNl : List Char → List Char → List String
  | [], cur => [String.mk cur.reverse]
  | c :: rest, cur =>
      if c = '\n' then String.mk cur.reverse :: splitNl rest []
      else splitNl rest (c :: cur)

/-- Lexicographic order on character lists by code point (Python string
comparison). -/
def listLe : List Char → List Char → Bool
  | [], _ => true
  | _ :: _, [] => false
  | a :: as, b :: bs => if a = b then listLe as bs else decide (a.toNat < b.toNat)

/-- Python `p <= q` on strings. -/
def strLe (p q : String) : Bool :=
  listLe p.data q.data

/-- First index of `x` in `l` (Python `list.index`, callers guard
membership; returns `l.length` when absent). -/
def idxOf : List String → String → Nat
  | [], _ => 0
  | y :: ys, x => if y == x then 0 else idxOf ys x + 1

/-- Deduplication keeping first occurrences. Python renders several event
strings from a `set(...)`, whose iteration order is unspecified; the model
fixes first-occurrence order. -/
def dedupFirst (l : List String) : List String :=
  l.foldl (fun acc x => if acc.contains x then acc else acc ++ [x]) []

/-- Values stored in object / agent records (`Dict[str, Any]` in the
source): strings, ints, rationals (Python floats), booleans, `None`,
lists of strings, lists of optional strings (e.g. COMBINE's `components`,
whose entries are `obj.get("kind")` and may be `None`), string-to-string
dicts (agent `knowledge`), and `datetime` values carried as their ISO-8601
rendering. -/
inductive PVal where
  | s (v : String)
  | i (v : Int)
  | q (v : ℚ)
  | b (v : Bool)
  | none
  | slist (vs : List String)
  | olist (vs : List (Option String))
  | smap (vs : List (String × String))
  | dt (iso : String)
deriving DecidableEq

/-- An object or agent record: an ordered string-keyed dict of `PVal`s. -/
abbrev Obj := List (String × PVal)

/-- Python `str(v)` as used in f-string interpolation of record values. -/
def pvStr : PVal → String
  | PVal.s v => v
  | PVal.i n => toString n
  | PVal.q v => toString v
  | PVal.b true => "True"
  | PVal.b false => "False"
  | PVal.none => "None"
  | PVal.slist vs =>
      "[" ++ String.intercalate ", " (vs.map (fun v => "\x27" ++ v ++ "\x27")) ++ "]"
  | PVal.olist vs =>
      "[" ++ String.intercalate ", "
        (vs.map (fun v => match v with
          | some x => "\x27" ++ x ++ "\x27"
          | Option.none => "None")) ++ "]"
  | PVal.smap vs =>
      "\x7b" ++ String.intercalate ", "
        (vs.map (fun p => "\x27" ++ p.1 ++ "\x27: \x27" ++ p.2 ++ "\x27")) ++ "\x7d"
  | PVal.dt iso => iso

/-- Render `d.get(key, default-string)` the way the source's f-strings do. -/
def pvStrD (v : Option PVal) (d : String) : String :=
  match v with
  | some x => pvStr x
  | Option.none => d

/-- An environmental event (`world.py` event dicts): `type`, `description`,
`duration`, `start_tick`, `end_tick`. -/
structure EEvent where
  etype : String
  description : String
  duration : Nat
  start_tick : Nat
  end_tick : Nat
deriving DecidableEq

/-- An innovation reward record (`world.py reward_innovation`). -/
structure Reward where
  agent : String
  rtype : String
  details : String
  tick : Nat
  reward_value : Int
deriving DecidableEq

/-- The `environment` sub-dict of `WorldState`. `scarcity_pressure` is a
Python float whose every mutation in the source is a multiple of 0.5
(`+3`, `-0.5`, `-1`, floor `0`); the model stores it exactly in half-unit
grain (model value = 2 × Python value). -/
structure Env where
  weather : String
  season : String
  resources : List (String × Int)
  active_events : List EEvent
  event_history : List EEvent
  innovation_rewards : List Reward
  discovery_materials : List String
  scarcity_pressure : Int
deriving DecidableEq

/-- Default environment (the `field(default_factory=...)` literal in
`WorldState`). -/
def defaultEnv : Env :=
  { weather := "clear"
    season := "spring"
    resources := [("wood", 100), ("stone", 80), ("water", 100), ("food", 60)]
    active_events := []
    event_history := []
    innovation_rewards := []
    discovery_materials := []
    scarcity_pressure := 0 }

/-- The `WorldState` dataclass of `sandbox/world.py`. -/
structure World where
  tick : Nat
  objects : List (String × Obj)
  agents : List (String × Obj)
  verbs : List (String × String)
  environment : Env
  agent_action_history : List (String × List String)
  current_focus : String
  focus_change_tick : Nat
deriving DecidableEq

/-- A fresh `WorldState()`. -/
def defaultWorld : World :=
  { tick := 0
    objects := []
    agents := []
    verbs := []
    environment := defaultEnv
    agent_action_history := []
    current_focus := "exploration"
    focus_change_tick := 0 }

/-- Fresh object id supply standing in for `uuid4().hex[:8]` (the source
draws random 8-hex ids, assumed unique; the model draws from a counter). -/
def freshOid (n : Nat) : String := "oid" ++ toString n

/-- `WorldState.add_object`: insert `{"kind": kind, **props}` under a fresh
id (dict-merge semantics, `props` may override `"kind"`). -/
def World.add_object (w : World) (oid kind : String) (props : Obj) : World :=
  { w with objects := w.objects ++ [(oid, alMerge [("kind", PVal.s kind)] props)] }

/-- Season cycle of `update_environment`. -/
def seasonsList : List String := ["spring", "summer", "autumn", "winter"]

/-- Weather catalogue of `update_environment`. -/
def weathersList : List String := ["clear", "cloudy", "rainy", "windy"]

/-- Resource regeneration pass of `update_environment`: each of the four
standard resources below 100 gains 5, capped at 100. The source indexes
`resources[r]` directly (raising `KeyError` if a standard key is absent);
the model reads with default 0, and the theorems about this function are
stated for worlds carrying the standard keys. -/
def regenResources (res : List (String × Int)) : List (String × Int) :=
  ["wood", "stone", "water", "food"].foldl
    (fun r name =>
      let current := (alGet r name).getD 0
      if current < 100 then alSet r name (min 100 (current + 5)) else r)
    res

/-- `WorldState.update_environment`, with the two random samples (the
weather roll `random.random()` and the `random.choice` index) passed
explicitly. Returns the updated world and the emitted messages. -/
def World.update_environment (w : World) (roll : ℚ) (pick : Nat) :
    World × List String :=
  let kept := w.environment.active_events.filter (fun e => w.tick < e.end_tick)
  let msgs1 := (w.environment.active_events.filter
      (fun e => ¬ w.tick < e.end_tick)).map
      (fun e => "🌍 Event \x27" ++ e.etype ++ "\x27 has ended")
  let res1 := if w.tick % 5 == 0 then regenResources w.environment.resources
              else w.environment.resources
  let s1 := if w.environment.scarcity_pressure > 0 then
              max 0 (w.environment.scarcity_pressure - 1)
            else w.environment.scarcity_pressure
  let expected := seasonsList.getD ((w.tick / 25) % 4) "spring"
  let seasonChanged := w.environment.season ≠ expected
  let msgs2 := if seasonChanged then
      ["🌍 Season changed to " ++ expected ++ " (tick " ++ toString w.tick ++ ")"]
    else []
  let weather0 := w.environment.weather
  let nw := if roll < mkRat 1 10 then weathersList.getD (pick % 4) "clear"
            else weather0
  let weatherChanged := roll < mkRat 1 10 ∧ nw ≠ weather0
  let msgs3 := if weatherChanged then ["🌍 Weather changed to " ++ nw] else []
  ({ w with environment :=
      { w.environment with
          active_events := kept
          resources := res1
          scarcity_pressure := s1
          season := expected
          weather := if weatherChanged then nw else weather0 } },
   msgs1 ++ msgs2 ++ msgs3)

/-- Informational-command markers of `detect_agent_loops` (substring
tests on the action text). -/
def infoMarkers : List String :=
  ["LIST", "has no skills", "sees available", "sees agents"]

/-- Core of `WorldState.detect_agent_loops` on one participant's history:
append the action, evict the oldest entry beyond 12, then apply the
informational / effectful repetition tests. Returns the new history and
the loop flag. -/
def detectLoopHist (history0 : List String) (action : String) :
    List String × Bool :=
  let h1 := history0 ++ [action]
  let h := if h1.length > 12 then h1.tail else h1
  if infoMarkers.any (fun m => strContains action m) then
    (h,
     if 10 ≤ h.length then
       let recent := h.drop (h.length - 10)
       decide (recent.dedup.length ≤ 1) &&
         decide (8 ≤ (recent.filter
           (fun a => strContains a "LIST" || strContains a "has no")).length)
     else false)
  else
    (h,
     if 10 ≤ h.length then
       let recent := h.drop (h.length - 8)
       decide (recent.dedup.length ≤ 1) && decide (6 ≤ recent.length)
     else false)

/-- `WorldState.detect_agent_loops`: looks up (creating if absent) the
participant's history, updates it, and returns the flag. -/
def World.detect_agent_loops (w : World) (agent action : String) :
    World × Bool :=
  let hist := (alGet w.agent_action_history agent).getD []
  let r := detectLoopHist hist action
  ({ w with agent_action_history := alSet w.agent_action_history agent r.1 },
   r.2)

/-- `WorldState.reward_innovation`: append a reward with the fixed value
for the innovation type and apply the type-specific side effect. Returns
the updated world and the reward message. -/
def World.reward_innovation (w : World) (agent itype details : String) :
    World × String :=
  let value : Int :=
    if itype == "COMBINE" then 3
    else if itype == "EXPERIMENT" then 5
    else if itype == "DEFINE" then 4
    else if itype == "TRADE" then 2
    else 0
  let env := w.environment
  let env1 :=
    if itype == "COMBINE" then
      if env.discovery_materials.contains "crystal_shard" then env
      else { env with discovery_materials :=
               env.discovery_materials ++ ["crystal_shard"] }
    else if itype == "EXPERIMENT" then
      { env with discovery_materials :=
          env.discovery_materials ++ ["experiment_residue", "new_compound"] }
    else if itype == "DEFINE" then
      if env.active_events.length < 2 then
        { env with active_events := env.active_events ++
            [{ etype := "innovation_surge"
               description :=
                 "Your innovation inspires creative energy throughout the world"
               duration := 3
               start_tick := w.tick
               end_tick := w.tick + 3 }] }
      else env
    else if itype == "TRADE" then
      { env with scarcity_pressure := max 0 (env.scarcity_pressure - 2) }
    else env
  let env2 := { env1 with innovation_rewards := env1.innovation_rewards ++
      [{ agent := agent, rtype := itype, details := details, tick := w.tick
         reward_value := value }] }
  ({ w with environment := env2 },
   "🎉 INNOVATION REWARD: " ++ agent ++ " gained " ++ toString value ++
     " innovation points for " ++ itype ++ "!")

/-- Reserved core verbs of `sandbox/commands.py` (note: `LIST` is handled
by the dispatch chain but absent from this set, exactly as in the source). -/
def CORE_VERBS : List String :=
  ["CREATE", "MOVE", "SET", "BREED", "DEFINE", "HELP",
   "TEACH", "LEARN", "TRADE", "DESTROY", "COMBINE",
   "ANALYZE", "EXPERIMENT", "USE", "MODIFY", "INSPECT", "IF"]

/-- `_kv_pairs`: collect `key=value` tokens into a dict of string values. -/
def kvPairs (tokens : List String) : Obj :=
  tokens.foldl
    (fun kv tok =>
      if strContains tok "=" then
        let p := splitOnce tok "="
        alSet kv p.1 (PVal.s p.2)
      else kv)
    []

/-- Render `obj.get("kind", "").lower()`'s operand: the kind as a string
(the source would raise `AttributeError` on a non-string kind; the model
treats such records as never matching). -/
def kindStr (o : Obj) : String :=
  match alGet o "kind" with
  | some (PVal.s v) => v
  | _ => ""

/-- The kind as stored (`obj.get("kind")`), used for COMBINE `components`. -/
def kindOpt (o : Obj) : Option String :=
  match alGet o "kind" with
  | some (PVal.s v) => some v
  | _ => Option.none

/-- `_find_object_by_kind`: first object whose kind matches
case-insensitively, optionally filtered by creator. -/
def findObjectByKind (w : World) (kind : String) (creator : Option String) :
    Option String :=
  (w.objects.find? (fun p =>
    strLower (kindStr p.2) == strLower kind &&
      (match creator with
       | Option.none => true
       | some c => alGet p.2 "creator" == some (PVal.s c)))).map (fun p => p.1)

/-- `_normalize_skill`. -/
def normalizeSkill (s : String) : String :=
  pyStrip (strReplace (strReplace (strReplace (strLower s) "-" "") "_" "") " " "")

/-- `_get_agent_skills` (default `[]`). -/
def getAgentSkills (w : World) (agent : String) : List String :=
  match alGet ((alGet w.agents agent).getD []) "skills" with
  | some (PVal.slist vs) => vs
  | _ => []

/-- `_add_agent_skill` (with the `setdefault` insertion of the agent). -/
def addAgentSkill (w : World) (agent skill : String) : World :=
  let rec0 := (alGet w.agents agent).getD []
  let skills := match alGet rec0 "skills" with
    | some (PVal.slist vs) => vs
    | _ => []
  let rec1 := if skills.contains skill then rec0
              else alSet rec0 "skills" (PVal.slist (skills ++ [skill]))
  { w with agents := alSet w.agents agent rec1 }

/-- `_get_agent_knowledge` (default `{}`). -/
def getAgentKnowledge (w : World) (agent : String) : List (String × String) :=
  match alGet ((alGet w.agents agent).getD []) "knowledge" with
  | some (PVal.smap vs) => vs
  | _ => []

/-- `_add_agent_knowledge`. -/
def addAgentKnowledge (w : World) (agent topic content : String) : World :=
  let rec0 := (alGet w.agents agent).getD []
  let know := match alGet rec0 "knowledge" with
    | some (PVal.smap vs) => vs
    | _ => []
  { w with agents :=
      alSet w.agents agent (alSet rec0 "knowledge" (PVal.smap (alSet know topic content))) }

/-- `_evaluate_condition`: the three condition kinds of IF. -/
def evalCondition (w : World) (speaker cond0 : String) : Bool :=
  let cond := pyStrip cond0
  if strStartsWith (strUpper cond) "HAS " then
    (findObjectByKind w (pyStrip (strDrop cond 4)) (some speaker)).isSome
  else if strContains cond "=" then
    let p := splitOnce cond "="
    let agentData := (alGet w.agents speaker).getD []
    strLower (pvStr ((alGet agentData p.1).getD (PVal.s ""))) == strLower p.2
  else if strStartsWith (strUpper cond) "EXISTS " then
    (findObjectByKind w (pyStrip (strDrop cond 7)) Option.none).isSome
  else false

/-- The `_PATTERN` match `^WORLD:\s*(.+)` (case-insensitive, applied to the
stripped line): returns the command text after the prefix, or nothing. -/
def matchWorld (line : String) : Option String :=
  let t := pyStrip line
  if strUpper (strTake t 6) == "WORLD:" then
    let rest := pyLStrip (strDrop t 6)
    if rest == "" then Option.none else some rest
  else Option.none

/-- A breed request payload published on the bus by the BREED verb. -/
structure BreedReq where
  parent : String
  partner : String
  tick : Nat
deriving DecidableEq

/-- Stream of random draws consumed by EXPERIMENT (`random.random()` as
rationals, `random.choice`/`random.randint` as naturals); an exhausted
stream yields 0. -/
structure Rng where
  floats : List ℚ
  nats : List Nat
deriving DecidableEq

/-- Draw the next `random.random()` sample. -/
def Rng.nextFloat : Rng → ℚ × Rng
  | ⟨[], ns⟩ => (0, ⟨[], ns⟩)
  | ⟨x :: xs, ns⟩ => (x, ⟨xs, ns⟩)

/-- Draw the next integer sample. -/
def Rng.nextNat : Rng → Nat × Rng
  | ⟨fs, []⟩ => (0, ⟨fs, []⟩)
  | ⟨fs, n :: ns⟩ => (n, ⟨fs, ns⟩)

/-- Interpreter state threaded through `execute`: the world, the fresh-id
counter, the random stream, and the bus (list of published breed
requests). -/
structure ExecSt where
  world : World
  fresh : Nat
  rng : Rng
  bus : List BreedReq
deriving DecidableEq

/-- Outcome of one `execute` call: normal return, an uncaught Python
exception, or exhaustion of the recursion budget (Python's
RecursionError — reached at every finite depth iff the recursion is
unbounded). -/
inductive Status where
  | ok
  | exn (msg : String)
  | deep
deriving DecidableEq

/-- Per-line control flow inside `execute`'s loop: fall through to the
next line, early `return events`, or propagate an exception / recursion
overflow. -/
inductive Ctl where
  | next
  | ret
  | raise (msg : String)
  | deep
deriving DecidableEq

/-- Propagate the outcome of a recursive `execute` call into the caller's
line loop. -/
def ctlOfStatus : Status → Ctl
  | Status.ok => Ctl.next
  | Status.exn m => Ctl.raise m
  | Status.deep => Ctl.deep

/-- Shape of the recursive executor passed to the non-recursive line
handlers: speaker, content, state. -/
abbrev Recur := String → String → ExecSt → ExecSt × List String × Status

/-- Set one property of an existing object (`world.objects[oid][k] = v`). -/
def setObjProp (w : World) (oid key : String) (v : PVal) : World :=
  { w with objects :=
      match alGet w.objects oid with
      | some o => alSet w.objects oid (alSet o key v)
      | Option.none => w.objects }

/-- Positional substitution of `${argN}` placeholders in a macro-verb
template. -/
def substArgs : String → List String → Nat → String
  | m, [], _ => m
  | m, t :: ts, i =>
      substArgs (strReplace m ("$\x7barg" ++ toString i ++ "\x7d") t) ts (i + 1)

/-- Count of objects of the given kind with the given creator (the
duplicate-creation guard's `sum(1 for obj in world.objects.values() ...)`;
both comparisons are exact, unlike `_find_object_by_kind`'s
case-insensitive kind match). -/
def createdCount (w : World) (kind creator : String) : Nat :=
  (w.objects.filter (fun p =>
      alGet p.2 "kind" == some (PVal.s kind) &&
      alGet p.2 "creator" == some (PVal.s creator))).length

/-- CREATE branch: skip leading article tokens to pick the kind, enforce
the duplicate-creation guard (reject at 3+ existing same-kind objects by
the same creator — an early `return` from the whole call — and warn at
2), then add the object with `creator`/`turn` stamped. -/
def doCreate (speaker : String) (remainder : List String) (st : ExecSt) :
    ExecSt × List String × Ctl :=
  let w := st.world
  let pick := remainder.foldl
    (fun (acc : Option String × List String) tok =>
      match acc.1 with
      | Option.none =>
          if ["a", "an", "the"].contains (strLower tok) then (Option.none, acc.2 ++ [tok])
          else (some tok, acc.2)
      | some _ => (acc.1, acc.2 ++ [tok]))
    (Option.none, [])
  let kind := pick.1.getD (remainder.headD "")
  let rest := pick.2
  let existingCount := createdCount w kind speaker
  if 3 ≤ existingCount then
    (st,
     [speaker ++ " already has " ++ toString existingCount ++ " " ++ kind ++
        "s. Consider creating something different or upgrading existing ones."],
     Ctl.ret)
  else
    let warn := if 2 ≤ existingCount then
        [speaker ++ " already has " ++ toString existingCount ++ " " ++ kind ++
           "s. Consider IF statements to avoid duplicates."]
      else []
    let props := alMerge (kvPairs rest)
      [("creator", PVal.s speaker), ("turn", PVal.i w.tick)]
    let oid := freshOid st.fresh
    ({ st with world := w.add_object oid kind props, fresh := st.fresh + 1 },
     warn ++ [speaker ++ " created " ++ kind ++ " (id=" ++ oid ++ ")"],
     Ctl.next)

/-- MOVE TO branch. -/
def doMove (speaker : String) (remainder : List String) (st : ExecSt) :
    ExecSt × List String × Ctl :=
  let loc := remainder.getD 1 ""
  let w := st.world
  let rec0 := (alGet w.agents speaker).getD []
  ({ st with world :=
      { w with agents := alSet w.agents speaker (alSet rec0 "location" (PVal.s loc)) } },
   [speaker ++ " moved to " ++ loc], Ctl.next)

/-- SET key=value branch. -/
def doSet (speaker : String) (remainder : List String) (st : ExecSt) :
    ExecSt × List String × Ctl :=
  let p := splitOnce (remainder.headD "") "="
  let w := st.world
  let rec0 := (alGet w.agents speaker).getD []
  ({ st with world :=
      { w with agents := alSet w.agents speaker (alSet rec0 p.1 (PVal.s p.2)) } },
   [speaker ++ " set " ++ p.1 ++ "=" ++ p.2], Ctl.next)

/-- TEACH branch: transfer a skill or knowledge entry the teacher
possesses (skills matched after normalization). -/
def doTeach (speaker : String) (remainder : List String) (st : ExecSt) :
    ExecSt × List String × Ctl :=
  let student := remainder.headD ""
  let skill := String.intercalate " " remainder.tail
  let w := st.world
  let tSkills := getAgentSkills w speaker
  let tKnow := getAgentKnowledge w speaker
  let ns := normalizeSkill skill
  let hasSkill := tSkills.any (fun s => normalizeSkill s == ns)
  let hasKnow := (alGet tKnow skill).isSome
  if hasSkill || hasKnow then
    let w1 := if hasSkill then addAgentSkill w student skill
              else addAgentKnowledge w student skill ((alGet tKnow skill).getD "")
    ({ st with world := w1 },
     [speaker ++ " taught " ++ skill ++ " to " ++ student], Ctl.next)
  else
    (st, [speaker ++ " cannot teach " ++ skill ++ " (not possessed)"], Ctl.next)

/-- LEARN branch (self-learning, or learning FROM a teacher who has the
normalized skill). -/
def doLearn (speaker : String) (remainder : List String) (st : ExecSt) :
    ExecSt × List String × Ctl :=
  if (remainder.map strUpper).contains "FROM" then
    let fromIdx := idxOf (remainder.map strUpper) "FROM"
    let skill := String.intercalate " " (remainder.take fromIdx)
    match remainder.get? (fromIdx + 1) with
    | some teacher =>
        let ns := normalizeSkill skill
        if (getAgentSkills st.world teacher).any (fun s => normalizeSkill s == ns) then
          ({ st with world := addAgentSkill st.world speaker skill },
           [speaker ++ " learned " ++ skill ++ " from " ++ teacher], Ctl.next)
        else
          (st, [speaker ++ " cannot learn " ++ skill ++ " from " ++ teacher],
           Ctl.next)
    | Option.none =>
        (st, [speaker ++ " cannot learn " ++ skill ++ " from None"], Ctl.next)
  else
    let skill := String.intercalate " " remainder
    ({ st with world := addAgentSkill st.world speaker skill },
     [speaker ++ " self-learned " ++ skill], Ctl.next)

/-- TRADE branch: swap the `creator` fields of the two matched objects. -/
def doTrade (speaker : String) (remainder : List String) (st : ExecSt) :
    ExecSt × List String × Ctl :=
  let forIdx := idxOf remainder "FOR"
  let withIdx := idxOf remainder "WITH"
  let offerItem := String.intercalate " " (remainder.take forIdx)
  let wantedItem := String.intercalate " "
    ((remainder.drop (forIdx + 1)).take (withIdx - forIdx - 1))
  let partner? := remainder.get? (withIdx + 1)
  let offerObj := findObjectByKind st.world offerItem (some speaker)
  let wantedObj := findObjectByKind st.world wantedItem partner?
  match offerObj, wantedObj, partner? with
  | some o, some wn, some partner =>
      let w1 := setObjProp st.world o "creator" (PVal.s partner)
      let w2 := setObjProp w1 wn "creator" (PVal.s speaker)
      let r := w2.reward_innovation speaker "TRADE"
        ("Traded " ++ offerItem ++ " for " ++ wantedItem ++ " with " ++ partner)
      ({ st with world := r.1 },
       [speaker ++ " traded " ++ offerItem ++ " for " ++ wantedItem ++
          " with " ++ partner, r.2], Ctl.next)
  | _, _, _ =>
      (st, [speaker ++ " trade failed: missing items or partner"], Ctl.next)

/-- DESTROY branch: remove one object of the kind owned by the actor. -/
def doDestroy (speaker : String) (remainder : List String) (st : ExecSt) :
    ExecSt × List String × Ctl :=
  let target := remainder.headD ""
  match findObjectByKind st.world target (some speaker) with
  | some oid =>
      let destroyedKind :=
        pvStrD (alGet ((alGet st.world.objects oid).getD []) "kind") target
      ({ st with world := { st.world with objects := alErase st.world.objects oid } },
       [speaker ++ " destroyed " ++ destroyedKind ++ " (id=" ++ oid ++ ")"],
       Ctl.next)
  | Option.none =>
      (st, [speaker ++ " cannot destroy " ++ target ++ " (not found or not owned)"],
       Ctl.next)

/-- COMBINE, both-names-resolved arm: pop both source objects — the
second `pop` raises `KeyError` when both names resolved to the same
object, exactly the source's behaviour for e.g. `COMBINE wood AND wood` —
then create the combined object and reward the innovation. -/
def combineFound (speaker obj1Name obj2Name resultName o1 o2 : String)
    (st : ExecSt) : ExecSt × List String × Ctl :=
  let w := st.world
  let obj1 := (alGet w.objects o1).getD []
  let objsA := alErase w.objects o1
  match alGet objsA o2 with
  | Option.none =>
      ({ st with world := { w with objects := objsA } }, [],
       Ctl.raise ("KeyError: " ++ o2))
  | some obj2 =>
      let objsB := alErase objsA o2
      let combinedProps : Obj :=
        [("creator", PVal.s speaker), ("turn", PVal.i w.tick),
         ("components", PVal.olist [kindOpt obj1, kindOpt obj2]),
         ("combined_from", PVal.slist [o1, o2])]
      let oid := freshOid st.fresh
      let w2 := World.add_object { w with objects := objsB } oid resultName
        combinedProps
      let r := w2.reward_innovation speaker "COMBINE"
        (obj1Name ++ " + " ++ obj2Name ++ " = " ++ resultName)
      ({ st with world := r.1, fresh := st.fresh + 1 },
       [speaker ++ " combined " ++ obj1Name ++ " and " ++ obj2Name ++
          " into " ++ resultName ++ " (id=" ++ oid ++ ")", r.2],
       Ctl.next)

/-- COMBINE, unresolved-name arm: helpful failure event, no mutation. -/
def combineMissing (speaker obj1Name obj2Name : String) (st : ExecSt) :
    ExecSt × List String × Ctl :=
  let available := dedupFirst (st.world.objects.map (fun q => kindStr q.2))
  (st,
   [speaker ++ " cannot combine: " ++ obj1Name ++ " or " ++ obj2Name ++
      " not found. Available: " ++ String.intercalate ", " available],
   Ctl.next)

/-- COMBINE branch: parse the two source names and the result name, then
resolve both named kinds in the global object pool and take the arm
above. -/
def doCombine (speaker : String) (remainder : List String) (st : ExecSt) :
    ExecSt × List String × Ctl :=
  let andIdx := idxOf remainder "AND"
  let obj1Name := String.intercalate " " (remainder.take andIdx)
  let p :=
    if remainder.contains "INTO" then
      let intoIdx := idxOf remainder "INTO"
      (String.intercalate " " ((remainder.drop (andIdx + 1)).take (intoIdx - andIdx - 1)),
       String.intercalate " " (remainder.drop (intoIdx + 1)))
    else
      let o2 := String.intercalate " " (remainder.drop (andIdx + 1))
      (o2, "combined_" ++ obj1Name ++ "_" ++ o2)
  let obj2Name := p.1
  let resultName := p.2
  match findObjectByKind st.world obj1Name Option.none,
        findObjectByKind st.world obj2Name Option.none with
  | some o1, some o2 => combineFound speaker obj1Name obj2Name resultName o1 o2 st
  | _, _ => combineMissing speaker obj1Name obj2Name st

/-- ANALYZE branch (read-only on objects; records derived knowledge). -/
def doAnalyze (speaker : String) (remainder : List String) (st : ExecSt) :
    ExecSt × List String × Ctl :=
  let target := remainder.headD ""
  match findObjectByKind st.world target Option.none with
  | some oid =>
      let obj := (alGet st.world.objects oid).getD []
      let analysis := "Object " ++ target ++ ": kind=" ++
        pvStrD (alGet obj "kind") "None" ++ ", creator=" ++
        pvStrD (alGet obj "creator") "None" ++ ", properties=" ++
        toString obj.length
      ({ st with world :=
           addAgentKnowledge st.world speaker ("analysis_of_" ++ target) analysis },
       [speaker ++ " analyzed " ++ target ++ ": " ++ analysis], Ctl.next)
  | Option.none =>
      if st.world.objects ≠ [] then
        (st,
         [speaker ++ " cannot analyze " ++ target ++
            " (not found). Available objects: " ++
            String.intercalate ", "
              (dedupFirst (st.world.objects.map (fun q => kindStr q.2))) ++
            ". Try \x27LIST\x27 to see all objects."], Ctl.next)
      else
        (st,
         [speaker ++ " cannot analyze " ++ target ++
            " (not found). No objects exist yet. Try \x27CREATE\x27 to make something first."],
         Ctl.next)

/-- EXPERIMENT branch: probabilistic discovery (base success chance 2/5,
+1/5 per discovery material, capped at 9/10), consuming the random
stream. -/
def doExperiment (speaker : String) (remainder : List String) (st : ExecSt) :
    ExecSt × List String × Ctl :=
  let materials := remainder.tail
  let w := st.world
  let avail := materials.filter (fun m => (findObjectByKind w m Option.none).isSome)
  let disc := materials.filter (fun m =>
    match findObjectByKind w m Option.none with
    | some oid =>
        let obj := (alGet w.objects oid).getD []
        alGet obj "creator" == some (PVal.s "cosmic") ||
        alGet obj "creator" == some (PVal.s "ancient") ||
        alGet obj "rarity" == some (PVal.s "rare") ||
        alGet obj "rarity" == some (PVal.s "legendary")
    | Option.none => false)
  if avail ≠ [] then
    let chance : ℚ :=
      if disc ≠ [] then mkRat (min 900 (400 + 200 * (disc.length : Int))) 1000
      else mkRat 400 1000
    let d1 := st.rng.nextFloat
    if d1.1 < chance then
      let dr :=
        if disc ≠ [] then
          let pk := d1.2.nextNat
          let pfx := ["mystical", "enhanced", "powered", "crystal", "ancient",
            "energy"].getD (pk.1 % 6) "mystical"
          let num := pk.2.nextNat
          (pfx ++ "_" ++ toString (1000 + num.1 % 9000), num.2)
        else
          let num := d1.2.nextNat
          ("experimental_" ++ toString (1000 + num.1 % 9000), num.2)
      let discovery := dr.1
      let props0 : Obj :=
        [("creator", PVal.s speaker), ("turn", PVal.i w.tick),
         ("discovered_using", PVal.slist avail)]
      let props := if disc ≠ [] then
          props0 ++ [("enhanced", PVal.b true), ("discovery_level", PVal.i disc.length),
            ("rarity", PVal.s "enhanced")]
        else props0
      let oid := freshOid st.fresh
      let r := (World.add_object w oid discovery props).reward_innovation speaker
        "EXPERIMENT" ("Discovered " ++ discovery ++ " using " ++
          String.intercalate ", " avail)
      let ev := if disc ≠ [] then
          speaker ++ " experimented with " ++ String.intercalate ", " avail ++
            " and discovered " ++ discovery ++ " (id=" ++ oid ++
            ") - Enhanced by discovery materials!"
        else
          speaker ++ " experimented with " ++ String.intercalate ", " avail ++
            " and discovered " ++ discovery ++ " (id=" ++ oid ++ ")"
      ({ st with world := r.1, fresh := st.fresh + 1, rng := dr.2 },
       [ev, r.2], Ctl.next)
    else
      ({ st with rng := d1.2 },
       [if disc ≠ [] then
          speaker ++ " experimented with " ++ String.intercalate ", " avail ++
            " but the discovery materials need more time to reveal their secrets"
        else
          speaker ++ " experimented with " ++ String.intercalate ", " avail ++
            " but found nothing new"], Ctl.next)
  else
    (st,
     [speaker ++ " cannot experiment: materials not available. Try using: " ++
        String.intercalate ", " (dedupFirst (w.objects.map (fun q => kindStr q.2)))],
     Ctl.next)

/-- Python `tool_obj.get("uses", 0) + 1`: ints and booleans add, other
value types raise `TypeError`. -/
def usesPlusOne : PVal → Option PVal
  | PVal.i n => some (PVal.i (n + 1))
  | PVal.b bv => some (PVal.i ((if bv then 1 else 0) + 1))
  | PVal.q v => some (PVal.q (v + 1))
  | _ => Option.none

/-- USE branch: bump the use counter and grant a usage-derived skill. -/
def doUse (speaker : String) (remainder : List String) (st : ExecSt) :
    ExecSt × List String × Ctl :=
  let tool := remainder.headD ""
  let target? :=
    if remainder.length > 2 && strUpper (remainder.getD 1 "") == "ON" then
      some (String.intercalate " " (remainder.drop 2))
    else Option.none
  match findObjectByKind st.world tool (some speaker) with
  | some oid =>
      let obj := (alGet st.world.objects oid).getD []
      (match usesPlusOne ((alGet obj "uses").getD (PVal.i 0)) with
       | some n =>
           let w1 := setObjProp st.world oid "uses" n
           let w2 := addAgentSkill w1 speaker ("using_" ++ tool)
           (match target? with
            | some tgt =>
                ({ st with world := w2 },
                 [speaker ++ " used " ++ tool ++ " on " ++ tgt], Ctl.next)
            | Option.none =>
                ({ st with world := w2 }, [speaker ++ " used " ++ tool], Ctl.next))
       | Option.none => (st, [], Ctl.raise "TypeError"))
  | Option.none =>
      (st, [speaker ++ " cannot use " ++ tool ++ " (not found or not owned)"],
       Ctl.next)

/-- MODIFY branch. -/
def doModify (speaker : String) (remainder : List String) (st : ExecSt) :
    ExecSt × List String × Ctl :=
  let target := remainder.headD ""
  let kv := remainder.getD 1 ""
  if strContains kv "=" then
    let p := splitOnce kv "="
    match findObjectByKind st.world target (some speaker) with
    | some oid =>
        ({ st with world := setObjProp st.world oid p.1 (PVal.s p.2) },
         [speaker ++ " modified " ++ target ++ ": set " ++ p.1 ++ "=" ++ p.2],
         Ctl.next)
    | Option.none =>
        (st, [speaker ++ " cannot modify " ++ target ++ " (not found or not owned)"],
         Ctl.next)
  else
    (st, [speaker ++ " malformed MODIFY syntax"], Ctl.next)

/-- INSPECT branch. -/
def doInspect (speaker : String) (remainder : List String) (st : ExecSt) :
    ExecSt × List String × Ctl :=
  let target := remainder.headD ""
  match findObjectByKind st.world target Option.none with
  | some oid =>
      let obj := (alGet st.world.objects oid).getD []
      let details := String.intercalate ", "
        (obj.map (fun q => q.1 ++ "=" ++ pvStr q.2))
      ({ st with world :=
           addAgentKnowledge st.world speaker ("inspection_of_" ++ target) details },
       [speaker ++ " inspected " ++ target ++ ": " ++ details], Ctl.next)
  | Option.none =>
      (st, [speaker ++ " cannot inspect " ++ target ++ " (not found)"], Ctl.next)

/-- BREED WITH branch: publish a breed request on the bus (never mutates
the world directly; the source's asyncio bookkeeping around the publish
has no effect on the model). -/
def doBreed (speaker : String) (remainder : List String) (st : ExecSt) :
    ExecSt × List String × Ctl :=
  let partner := remainder.getD 1 ""
  ({ st with bus := st.bus ++
       [{ parent := speaker, partner := partner, tick := st.world.tick }] },
   [speaker ++ " asked to breed with " ++ partner], Ctl.next)

/-- LIST branch (read-only enumeration). -/
def doList (speaker : String) (remainder : List String) (st : ExecSt) :
    ExecSt × List String × Ctl :=
  match remainder with
  | [] =>
      if st.world.objects ≠ [] then
        let objList := st.world.objects.map (fun q =>
          pvStrD (alGet q.2 "kind") "unknown" ++ " (id=" ++ strTake q.1 8 ++
            ", by " ++ pvStrD (alGet q.2 "creator") "unknown" ++ ")")
        (st, [speaker ++ " sees available objects: " ++
          String.intercalate ", " objList], Ctl.next)
      else
        (st, [speaker ++ " sees no objects in the world yet"], Ctl.next)
  | t :: _ =>
      let target := strLower t
      if target == "skills" then
        let skills := getAgentSkills st.world speaker
        if skills ≠ [] then
          (st, [speaker ++ " knows skills: " ++ String.intercalate ", " skills],
           Ctl.next)
        else (st, [speaker ++ " has no skills yet"], Ctl.next)
      else if target == "agents" then
        (st, [speaker ++ " sees agents: " ++
           String.intercalate ", " (st.world.agents.map (fun q => q.1))], Ctl.next)
      else
        (st, [speaker ++ " cannot list \x27" ++ target ++
           "\x27 (try: LIST, LIST skills, LIST agents)"], Ctl.next)

/-- DEFINE branch: register a new macro verb unless the name collides
with a core verb or an existing macro; reward the innovation. -/
def doDefine (speaker : String) (remainder : List String) (st : ExecSt) :
    ExecSt × List String × Ctl :=
  let idx := idxOf remainder "AS"
  let newVerb := strUpper (remainder.headD "")
  let template := String.intercalate " " (remainder.drop (idx + 1))
  if CORE_VERBS.contains newVerb || (alGet st.world.verbs newVerb).isSome then
    (st, [speaker ++ " failed to redefine reserved verb " ++ newVerb], Ctl.next)
  else
    let w1 := { st.world with verbs := alSet st.world.verbs newVerb template }
    let r := w1.reward_innovation speaker "DEFINE"
      ("Defined new verb " ++ newVerb ++ ": " ++ template)
    ({ st with world := r.1 },
     [speaker ++ " defined new verb " ++ newVerb, r.2], Ctl.next)

/-- IF cond THEN action branch: on a true condition, recursively execute
the action as a fresh directive line and append a trace event. -/
def doIf (recur : Recur) (speaker : String) (parts : List String) (st : ExecSt) :
    ExecSt × List String × Ctl :=
  let thenIdx := idxOf (parts.map strUpper) "THEN"
  let condition := String.intercalate " " ((parts.take thenIdx).drop 1)
  let action := String.intercalate " " (parts.drop (thenIdx + 1))
  if evalCondition st.world speaker condition then
    let r := recur speaker ("WORLD: " ++ action) st
    match r.2.2 with
    | Status.ok =>
        (r.1, r.2.1 ++ [speaker ++ " executed conditional: IF " ++ condition ++
           " THEN " ++ action], Ctl.next)
    | Status.exn m => (r.1, r.2.1, Ctl.raise m)
    | Status.deep => (r.1, r.2.1, Ctl.deep)
  else
    (st, [speaker ++ " condition not met: " ++ condition], Ctl.next)

/-- User-defined (macro) verb branch: substitute positional arguments
into the template and recursively execute the expansion. The source puts
no bound on this recursion. -/
def doCustomVerb (recur : Recur) (speaker verb : String)
    (remainder : List String) (st : ExecSt) : ExecSt × List String × Ctl :=
  let mapping := substArgs ((alGet st.world.verbs verb).getD "") remainder 1
  let r := recur speaker ("WORLD: " ++ mapping) st
  (r.1, r.2.1, ctlOfStatus r.2.2)

/-- One line of `execute`'s loop: match the directive prefix, tokenize,
and dispatch in the source's resolution order (IF, DEFINE, macro verbs,
then the core verbs, else the unknown-directive event). -/
def execLine (recur : Recur) (speaker line : String) (st : ExecSt) :
    ExecSt × List String × Ctl :=
  match matchWorld line with
  | Option.none => (st, [], Ctl.next)
  | some command =>
      let parts := pySplit command
      let verb := strUpper (parts.headD "")
      let remainder := parts.tail
      if verb == "IF" && (parts.map strUpper).contains "THEN" then
        doIf recur speaker parts st
      else if verb == "DEFINE" && !remainder.isEmpty && remainder.contains "AS" then
        doDefine speaker remainder st
      else if (alGet st.world.verbs verb).isSome then
        doCustomVerb recur speaker verb remainder st
      else if verb == "CREATE" && !remainder.isEmpty then
        doCreate speaker remainder st
      else if verb == "MOVE" && remainder.length ≥ 2 &&
          strUpper (remainder.headD "") == "TO" then
        doMove speaker remainder st
      else if verb == "SET" && !remainder.isEmpty &&
          strContains (remainder.headD "") "=" then
        doSet speaker remainder st
      else if verb == "TEACH" && remainder.length ≥ 2 then
        doTeach speaker remainder st
      else if verb == "LEARN" && !remainder.isEmpty then
        doLearn speaker remainder st
      else if verb == "TRADE" && remainder.contains "FOR" &&
          remainder.contains "WITH" then
        doTrade speaker remainder st
      else if verb == "DESTROY" && !remainder.isEmpty then
        doDestroy speaker remainder st
      else if verb == "COMBINE" && remainder.contains "AND" then
        doCombine speaker remainder st
      else if verb == "ANALYZE" && !remainder.isEmpty then
        doAnalyze speaker remainder st
      else if verb == "EXPERIMENT" && !remainder.isEmpty &&
          strUpper (remainder.headD "") == "WITH" then
        doExperiment speaker remainder st
      else if verb == "USE" && !remainder.isEmpty then
        doUse speaker remainder st
      else if verb == "MODIFY" && remainder.length ≥ 2 then
        doModify speaker remainder st
      else if verb == "INSPECT" && !remainder.isEmpty then
        doInspect speaker remainder st
      else if verb == "BREED" && remainder.length ≥ 2 &&
          strUpper (remainder.headD "") == "WITH" then
        doBreed speaker remainder st
      else if verb == "LIST" then
        doList speaker remainder st
      else
        (st, [speaker ++ " issued unknown directive: " ++ verb], Ctl.next)

/-- The line loop of `execute`: accumulate events, stop on the CREATE
guard's early `return`, propagate exceptions / recursion overflow. -/
def execLines (recur : Recur) (speaker : String) :
    List String → ExecSt → List String → ExecSt × List String × Status
  | [], st, acc => (st, acc, Status.ok)
  | l :: ls, st, acc =>
      match execLine recur speaker l st with
      | (st', evts, Ctl.next) => execLines recur speaker ls st' (acc ++ evts)
      | (st', evts, Ctl.ret) => (st', acc ++ evts, Status.ok)
      | (st', evts, Ctl.raise m) => (st', acc ++ evts, Status.exn m)
      | (st', evts, Ctl.deep) => (st', acc ++ evts, Status.deep)

/-- `execute(world, bus, speaker, content)` of `sandbox/commands.py`,
with a fuel bound on the (source-unbounded) recursion through IF and
macro verbs: `Status.deep` at every fuel value means the source recurses
without bound (RecursionError). On `Status.exn`/`Status.deep` the state
holds the mutations performed before the exception escaped (Python's
in-place mutations survive); the returned event list is the one the lost
Python frame had accumulated. -/
def execute : Nat → String → String → ExecSt → ExecSt × List String × Status
  | 0, _, _, st => (st, [], Status.deep)
  | Nat.succ n, speaker, content, st =>
      execLines (execute n) speaker (splitNl content.data []) st []

/-- State of `BreedingManager` (`sandbox/breeding.py`): pending requests
keyed by the ordered pair `(parent, partner)` with the request tick, and
the set of unordered pairs already matched (stored as sorted pairs, like
`tuple(sorted((p, q)))`). -/
structure BreedSt where
  pending : List ((String × String) × Nat)
  spawned_pairs : List (String × String)
deriving DecidableEq

/-- `tuple(sorted((p, q)))`: sort the two names lexicographically. -/
def sortPair (p q : String) : String × String :=
  if strLe p q then (p, q) else (q, p)

/-- Drain phase of `BreedingManager.step`: each queued request is dropped
when its unordered pair already spawned, otherwise stored in the pending
map. -/
def breedDrain (st : BreedSt) (drained : List BreedReq) : BreedSt :=
  drained.foldl
    (fun acc evt =>
      if acc.spawned_pairs.contains (sortPair evt.parent evt.partner) then acc
      else { acc with pending := alSet acc.pending (evt.parent, evt.partner) evt.tick })
    st

/-- Match phase of `BreedingManager.step`: iterate over a snapshot of the
pending map; when the reciprocal request is (still) pending and the ticks
are equal or adjacent, spawn one child (recorded as `(p, q, max t1 t2)`),
clear both pending entries and mark the unordered pair as spawned. -/
def breedMatch : List ((String × String) × Nat) → BreedSt →
    List (String × String × Nat) → BreedSt × List (String × String × Nat)
  | [], st, children => (st, children)
  | ((p, q), t1) :: rest, st, children =>
      match alGet st.pending (q, p) with
      | some t2 =>
          if ((t1 : Int) - (t2 : Int)).natAbs ≤ 1 then
            let st' : BreedSt :=
              { pending := alErase (alErase st.pending (p, q)) (q, p)
                spawned_pairs := st.spawned_pairs ++ [sortPair p q] }
            breedMatch rest st' (children ++ [(p, q, max t1 t2)])
          else breedMatch rest st children
      | Option.none => breedMatch rest st children

/-- `BreedingManager.step` on the queue contents drained this tick:
returns the new manager state and the children spawned, identified by
`(parent, partner, tick)` (the source additionally synthesizes the child
agent, registers it and saves the world — the claims here are about how
many children are spawned and for which pairs). -/
def BreedingManager.step (st : BreedSt) (drained : List BreedReq) :
    BreedSt × List (String × String × Nat) :=
  let st1 := breedDrain st drained
  breedMatch st1.pending st1 []

/-- Persistence-relevant projection of `Scheduler.run_tick`
(`sandbox/scheduler.py` step ❹): advance the tick, then save exactly when
the new tick is a multiple of `SAVE_EVERY`. `saves` records the ticks at
which `world.save` ran. -/
structure SchedSt where
  tick : Nat
  saves : List Nat
deriving DecidableEq

/-- One `run_tick` (its tick/persistence effect). -/
def runTickPersist (saveEvery : Nat) (s : SchedSt) : SchedSt :=
  let t := s.tick + 1
  { tick := t
    saves := s.saves ++ (if t % saveEvery == 0 then [t] else []) }

/-- `Scheduler.loop(max_ticks)` for a positive tick budget: run `run_tick`
`maxTicks` times, then terminate. The source's termination path
(`self.logger.close()` and task cancellation) performs no world save. -/
def loopPersist (saveEvery : Nat) : Nat → SchedSt → SchedSt
  | 0, s => s
  | Nat.succ n, s => loopPersist saveEvery n (runTickPersist saveEvery s)

/-- Serialization of one value: `json.dumps(..., default=_dt_handler)`
turns `datetime` values into their ISO-8601 strings and leaves the other
modelled value types unchanged. -/
def serializePVal : PVal → PVal
  | PVal.dt iso => PVal.s iso
  | v => v

/-- Serialization of a record. -/
def serializeObj (o : Obj) : Obj :=
  o.map (fun p => (p.1, serializePVal p.2))

/-- The structured document written by `WorldState.save` and read back by
`WorldState.load`; every field is optional because `load` tolerates
missing keys (`data.get(..., default)` / `if ... in data`). -/
structure Doc where
  tick : Option Nat
  objects : Option (List (String × Obj))
  agents : Option (List (String × Obj))
  verbs : Option (List (String × String))
  environment : Option Env
  agent_action_history : Option (List (String × List String))
  current_focus : Option String
  focus_change_tick : Option Nat
deriving DecidableEq

/-- `WorldState.save`: `asdict(self)` serialized to the snapshot document
(the atomic temp-file-plus-rename write is an I/O concern outside the
model). -/
def World.save (w : World) : Doc :=
  { tick := some w.tick
    objects := some (w.objects.map (fun p => (p.1, serializeObj p.2)))
    agents := some (w.agents.map (fun p => (p.1, serializeObj p.2)))
    verbs := some w.verbs
    environment := some w.environment
    agent_action_history := some w.agent_action_history
    current_focus := some w.current_focus
    focus_change_tick := some w.focus_change_tick }

/-- `WorldState.load`: a missing file yields a fresh `WorldState()`;
otherwise each present field replaces the default (for `environment`,
`instance.environment.update(data["environment"])` with a complete saved
environment replaces every default entry, i.e. yields the saved
environment). -/
def World.load (doc? : Option Doc) : World :=
  match doc? with
  | Option.none => defaultWorld
  | some d =>
      { tick := d.tick.getD 0
        objects := d.objects.getD []
        agents := d.agents.getD []
        verbs := d.verbs.getD []
        environment := d.environment.getD defaultWorld.environment
        agent_action_history :=
          d.agent_action_history.getD defaultWorld.agent_action_history
        current_focus := d.current_focus.getD defaultWorld.current_focus
        focus_change_tick :=
          d.focus_change_tick.getD defaultWorld.focus_change_tick }

/-- A value is datetime-free when it is not a `datetime`. -/
def PVal.isDt : PVal → Bool
  | PVal.dt _ => true
  | _ => false

/-- A world is datetime-free when no object or agent property is a
`datetime` value (for such worlds serialization is the identity). -/
def World.dtFree (w : World) : Bool :=
  w.objects.all (fun p => p.2.all (fun q => !q.2.isDt)) &&
  w.agents.all (fun p => p.2.all (fun q => !q.2.isDt))

/-! Concrete states used to instantiate the claims. -/

/-- World holding exactly one object of kind `wood`. -/
def oneWoodWorld : World := { defaultWorld with
  objects := [("w1", [("kind", PVal.s "wood"), ("creator", PVal.s "Eve")])] }

/-- Interpreter state over `oneWoodWorld`. -/
def oneWoodSt : ExecSt :=
  { world := oneWoodWorld, fresh := 0, rng := ⟨[], []⟩, bus := [] }

/-- World holding two distinct objects of kind `wood`. -/
def twoWoodWorld : World := { defaultWorld with
  objects := [("w1", [("kind", PVal.s "wood"), ("creator", PVal.s "Eve")]),
              ("w2", [("kind", PVal.s "wood"), ("creator", PVal.s "Adam")])] }

/-- Interpreter state over `twoWoodWorld`. -/
def twoWoodSt : ExecSt :=
  { world := twoWoodWorld, fresh := 0, rng := ⟨[], []⟩, bus := [] }

/-- World whose macro table maps the verb `LOOP` to the template `LOOP`
(obtainable in the source via `WORLD: DEFINE LOOP AS LOOP`). -/
def loopVerbWorld : World := { defaultWorld with verbs := [("LOOP", "LOOP")] }

/-- Interpreter state over `loopVerbWorld`. -/
def loopVerbSt : ExecSt :=
  { world := loopVerbWorld, fresh := 0, rng := ⟨[], []⟩, bus := [] }

/-- World where participant `Adam`'s action history has 9 entries whose
last 5 are the identical effectful directive `WORLD: CREATE hammer` (so
the 6th consecutive issue brings the history to 10 entries). -/
def loopHist9World : World := { defaultWorld with
  agent_action_history := [("Adam",
    ["WORLD: MOVE TO forest", "WORLD: MOVE TO cave", "WORLD: GATHER wood",
     "WORLD: CREATE rope", "WORLD: CREATE hammer", "WORLD: CREATE hammer",
     "WORLD: CREATE hammer", "WORLD: CREATE hammer", "WORLD: CREATE hammer"])] }

/-- World at a tick off the resource-regeneration cadence. -/
def tick3World : World := { defaultWorld with tick := 3 }

/-- World containing an object with a `datetime`-valued property. -/
def dtWorld : World := { defaultWorld with
  objects := [("o1", [("kind", PVal.s "clock"),
                      ("when", PVal.dt "2024-01-01T00:00:00")])] }

/-- World with three `hammer` objects created by `Eve` (the
duplicate-creation guard's rejection regime). -/
def threeHammerWorld : World := { defaultWorld with
  objects := [("h1", [("kind", PVal.s "hammer"), ("creator", PVal.s "Eve")]),
              ("h2", [("kind", PVal.s "hammer"), ("creator", PVal.s "Eve")]),
              ("h3", [("kind", PVal.s "hammer"), ("creator", PVal.s "Eve")])] }

/-- Interpreter state over `threeHammerWorld`. -/
def threeHammerSt : ExecSt :=
  { world := threeHammerWorld, fresh := 0, rng := ⟨[], []⟩, bus := [] }

/-- World with two `hammer` objects created by `Eve` (the guard's
warn-but-create regime). -/
def twoHammerWorld : World := { defaultWorld with
  objects := [("h1", [("kind", PVal.s "hammer"), ("creator", PVal.s "Eve")]),
              ("h2", [("kind", PVal.s "hammer"), ("creator", PVal.s "Eve")])] }

/-- Interpreter state over `twoHammerWorld`. -/
def twoHammerSt : ExecSt :=
  { world := twoHammerWorld, fresh := 0, rng := ⟨[], []⟩, bus := [] }

/-- World holding one `wood` and one `stone` object. -/
def woodStoneWorld : World := { defaultWorld with
  objects := [("w1", [("kind", PVal.s "wood"), ("creator", PVal.s "Eve")]),
              ("s1", [("kind", PVal.s "stone"), ("creator", PVal.s "Adam")])] }

/-- Interpreter state over `woodStoneWorld`. -/
def woodStoneSt : ExecSt :=
  { world := woodStoneWorld, fresh := 0, rng := ⟨[], []⟩, bus := [] }

/-! General helper lemmas about the association-list and list operations. -/

/-- Erasing one key leaves lookups of a different key unchanged. -/
theorem alGet_alErase_ne {α : Type} (l : List (String × α)) (i j : String)
    (hij : i ≠ j) : alGet (alErase l i) j = alGet l j := by
  induction l with
  | nil => rfl
  | cons hd tl ih =>
      rcases hd with ⟨k, v⟩
      by_cases hk : k = i
      · subst hk
        simp [alErase, alGet, hij]
      · simp only [alErase, if_neg hk, alGet]
        by_cases hkj : k = j
        · simp [if_pos hkj]
        · simp [if_neg hkj, ih]

/-- Accumulator form of the line loop: events already accumulated are
prepended to whatever the loop produces from an empty accumulator. -/
theorem execLines_acc (recur : Recur) (sp : String) (ls : List String)
    (st : ExecSt) (acc : List String) :
    execLines recur sp ls st acc =
      ((execLines recur sp ls st []).1,
       acc ++ (execLines recur sp ls st []).2.1,
       (execLines recur sp ls st []).2.2) := by
  induction ls generalizing st acc with
  | nil => simp [execLines]
  | cons l ls ih =>
      simp only [execLines]
      rcases execLine recur sp l st with ⟨st', evts, ctl⟩
      cases ctl with
      | next =>
          dsimp only
          rw [ih st' (acc ++ evts), ih st' ([] ++ evts)]
          simp
      | ret => simp
      | raise m => simp
      | deep => simp

set_option maxRecDepth 100000

/-- The self-referential macro `LOOP ↦ LOOP` makes each `execute` call
hand the identical speaker, content and state to the next recursion
level, so every finite recursion budget is exhausted: the model of the
source's unbounded macro recursion (Python RecursionError). -/
theorem execute_loopVerb_deep (n : Nat) :
    execute n "Eve" "WORLD: LOOP" loopVerbSt = (loopVerbSt, [], Status.deep) := by
  induction n with
  | zero => rfl
  | succ n ih =>
      have h2 : execLine (execute n) "Eve" "WORLD: LOOP" loopVerbSt =
          ((execute n "Eve" "WORLD: LOOP" loopVerbSt).1,
           (execute n "Eve" "WORLD: LOOP" loopVerbSt).2.1,
           ctlOfStatus (execute n "Eve" "WORLD: LOOP" loopVerbSt).2.2) := rfl
      have h3 : execLine (execute n) "Eve" "WORLD: LOOP" loopVerbSt =
          (loopVerbSt, [], Ctl.deep) := by rw [h2, ih]; rfl
      show execLines (execute n) "Eve" ["WORLD: LOOP"] loopVerbSt [] = _
      simp only [execLines]
      rw [h3]
      rfl

/-- Dispatch of a `COMBINE wood AND stone INTO hammer` line, given that
no macro verb shadows `COMBINE`. -/
theorem execLine_combine_ws (recur : Recur) (sp : String) (st : ExecSt)
    (h : alGet st.world.verbs "COMBINE" = Option.none) :
    execLine recur sp "WORLD: COMBINE wood AND stone INTO hammer" st =
      doCombine sp ["wood", "AND", "stone", "INTO", "hammer"] st := by
  show (if (alGet st.world.verbs "COMBINE").isSome = true
        then doCustomVerb recur sp "COMBINE" ["wood", "AND", "stone", "INTO", "hammer"] st
        else doCombine sp ["wood", "AND", "stone", "INTO", "hammer"] st) = _
  rw [h]
  rfl

/-- Dispatch of a `CREATE hammer` line, given that no macro verb shadows
`CREATE`. -/
theorem execLine_create_hammer (recur : Recur) (sp : String) (st : ExecSt)
    (h : alGet st.world.verbs "CREATE" = Option.none) :
    execLine recur sp "WORLD: CREATE hammer" st = doCreate sp ["hammer"] st := by
  show (if (alGet st.world.verbs "CREATE").isSome = true
        then doCustomVerb recur sp "CREATE" ["hammer"] st
        else doCreate sp ["hammer"] st) = _
  rw [h]
  rfl

/-- Dispatch of an unrecognized `FLY now` line, given that no macro verb
named `FLY` exists: the unknown-directive event, control continuing. -/
theorem execLine_fly (recur : Recur) (sp : String) (st : ExecSt)
    (h : alGet st.world.verbs "FLY" = Option.none) :
    execLine recur sp "WORLD: FLY now" st =
      (st, [sp ++ " issued unknown directive: " ++ "FLY"], Ctl.next) := by
  show (if (alGet st.world.verbs "FLY").isSome = true
        then doCustomVerb recur sp "FLY" ["now"] st
        else (st, [sp ++ " issued unknown directive: " ++ "FLY"], Ctl.next)) = _
  rw [h]
  rfl

/-- The parsing part of the COMBINE branch on this concrete directive,
reduced to the resolution match. -/
theorem doCombine_reduce (sp : String) (st : ExecSt) :
    doCombine sp ["wood", "AND", "stone", "INTO", "hammer"] st =
      (match findObjectByKind st.world "wood" Option.none,
             findObjectByKind st.world "stone" Option.none with
       | some o1, some o2 => combineFound sp "wood" "stone" "hammer" o1 o2 st
       | _, _ => combineMissing sp "wood" "stone" st) := rfl

/-- Claim C1: the Directive Interpreter is not exception-free. On the
well-formed directive `WORLD: COMBINE wood AND wood` in a world holding
exactly one object of kind `wood`, both source names resolve to the same
object, the second `dict.pop` raises `KeyError`, and `execute` escapes
with an exception after having removed the object — no event string
reports the failure. -/
theorem c1_combine_aliased_pop_raises :
    (execute 2 "Eve" "WORLD: COMBINE wood AND wood" oneWoodSt).2.2 =
        Status.exn "KeyError: w1" ∧
    (execute 2 "Eve" "WORLD: COMBINE wood AND wood" oneWoodSt).1.world.objects = [] :=
  ⟨by decide, by decide⟩

/-- Claim C5 (counterexample): macro expansion is not depth-bounded. For
the macro table `LOOP ↦ LOOP` and the directive `WORLD: LOOP`, no finite
recursion budget lets `execute` reach a core verb or a failure event —
the run is still mid-recursion at every depth, so the claimed
finitely-many-steps completion is false. -/
theorem c5_counterexample :
    ¬ ∃ n : Nat,
        (execute n "Eve" "WORLD: LOOP" loopVerbSt).2.2 ≠ Status.deep := by
  rintro ⟨n, hn⟩
  exact hn (by rw [execute_loopVerb_deep])

/-- Claim C5 (amended): recursive expansion of user-defined verbs is
unbounded in the source. A macro whose template is its own verb name
(`LOOP ↦ LOOP`, obtainable via `DEFINE`) never reaches a core verb or a
failure event: at every finite recursion depth the run of
`WORLD: LOOP` is still expanding, with the state unchanged and no events
produced — Python's RecursionError, not a reported failure. -/
theorem c5_macro_expansion_unbounded (n : Nat) :
    execute n "Eve" "WORLD: LOOP" loopVerbSt = (loopVerbSt, [], Status.deep) :=
  execute_loopVerb_deep n

/-- Behaviour of the COMBINE found-arm when the two names resolved to
distinct objects: remove exactly those two entries, append exactly one
new object, continue normally. -/
theorem combineFound_distinct (sp i j : String) (oi oj : Obj) (st : ExecSt)
    (hoi : alGet st.world.objects i = some oi)
    (hoj : alGet st.world.objects j = some oj)
    (hij : i ≠ j) :
    (combineFound sp "wood" "stone" "hammer" i j st).1.world.objects =
        alErase (alErase st.world.objects i) j ++
          [(freshOid st.fresh,
            ("kind", PVal.s "hammer") ::
              [("creator", PVal.s sp), ("turn", PVal.i st.world.tick),
               ("components", PVal.olist [kindOpt oi, kindOpt oj]),
               ("combined_from", PVal.slist [i, j])])] ∧
    (combineFound sp "wood" "stone" "hammer" i j st).2.2 = Ctl.next ∧
    (combineFound sp "wood" "stone" "hammer" i j st).2.1 =
      [sp ++ " combined " ++ "wood" ++ " and " ++ "stone" ++ " into " ++ "hammer" ++
         " (id=" ++ freshOid st.fresh ++ ")",
       "🎉 INNOVATION REWARD: " ++ sp ++ " gained " ++ toString (3 : Int) ++
         " innovation points for " ++ "COMBINE" ++ "!"] := by
  have hkey : alGet (alErase st.world.objects i) j = some oj := by
    rw [alGet_alErase_ne _ _ _ hij, hoj]
  simp only [combineFound, hoi, hkey]
  refine ⟨?_, ?_, ?_⟩ <;> first | rfl | trivial

/-- Claim C2 (counterexample): the claim fails when the two source names
coincide. In a world with two objects of kind `wood`, executing
`COMBINE wood AND wood INTO plank` — both named sources exist — removes
exactly one object, creates none, and raises `KeyError` (both
`_find_object_by_kind` calls resolve to the same first `wood` object, so
the second `pop` fails), contradicting both halves of the claimed
dichotomy. -/
theorem c2_counterexample :
    (twoWoodSt.world.objects.filter
        (fun p => alGet p.2 "kind" == some (PVal.s "wood"))).length = 2 ∧
    (execute 2 "Eve" "WORLD: COMBINE wood AND wood INTO plank" twoWoodSt).1.world.objects =
      [("w2", [("kind", PVal.s "wood"), ("creator", PVal.s "Adam")])] ∧
    (execute 2 "Eve" "WORLD: COMBINE wood AND wood INTO plank" twoWoodSt).2.2 =
      Status.exn "KeyError: w1" :=
  ⟨by decide, by decide, by decide⟩

/-- Claim C2 (amended): COMBINE is atomic whenever the two source names
resolve to two distinct objects — exactly those two objects are removed
and exactly one new object is created (with the reward event) — and when
either name resolves to no object, nothing is removed or created; but
when both names resolve to the same object (e.g. `COMBINE wood AND wood`)
the interpreter raises `KeyError` after removing that one object
(established by the counterexample). Stated for the directive
`WORLD: COMBINE wood AND stone INTO hammer` over an arbitrary world with
no macro verb shadowing `COMBINE`. -/
theorem c2_combine_atomicity (sp : String) (st : ExecSt)
    (hverb : alGet st.world.verbs "COMBINE" = Option.none) :
    (∀ i j oi oj,
        findObjectByKind st.world "wood" Option.none = some i →
        findObjectByKind st.world "stone" Option.none = some j →
        alGet st.world.objects i = some oi →
        alGet st.world.objects j = some oj →
        i ≠ j →
        (execute 1 sp "WORLD: COMBINE wood AND stone INTO hammer" st).1.world.objects =
            alErase (alErase st.world.objects i) j ++
              [(freshOid st.fresh,
                ("kind", PVal.s "hammer") ::
                  [("creator", PVal.s sp), ("turn", PVal.i st.world.tick),
                   ("components", PVal.olist [kindOpt oi, kindOpt oj]),
                   ("combined_from", PVal.slist [i, j])])] ∧
        (execute 1 sp "WORLD: COMBINE wood AND stone INTO hammer" st).2.2 = Status.ok) ∧
    ((findObjectByKind st.world "wood" Option.none = Option.none ∨
      findObjectByKind st.world "stone" Option.none = Option.none) →
        (execute 1 sp "WORLD: COMBINE wood AND stone INTO hammer" st).1 = st ∧
        (execute 1 sp "WORLD: COMBINE wood AND stone INTO hammer" st).2.2 = Status.ok) := by
  have hstep : execute 1 sp "WORLD: COMBINE wood AND stone INTO hammer" st =
      (match execLine (execute 0) sp "WORLD: COMBINE wood AND stone INTO hammer" st with
       | (st', evts, Ctl.next) => (st', [] ++ evts, Status.ok)
       | (st', evts, Ctl.ret) => (st', [] ++ evts, Status.ok)
       | (st', evts, Ctl.raise m) => (st', [] ++ evts, Status.exn m)
       | (st', evts, Ctl.deep) => (st', [] ++ evts, Status.deep)) := rfl
  rw [execLine_combine_ws (execute 0) sp st hverb, doCombine_reduce] at hstep
  constructor
  · intro i j oi oj hi hj hoi hoj hij
    rw [hi, hj] at hstep
    dsimp only at hstep
    obtain ⟨h1, h2, h3⟩ := combineFound_distinct sp i j oi oj st hoi hoj hij
    rcases hc : combineFound sp "wood" "stone" "hammer" i j st with ⟨stC, evtsC, ctlC⟩
    rw [hc] at hstep h1 h2 h3
    simp only at h1 h2 h3
    subst h2
    rw [hstep]
    exact ⟨h1, rfl⟩
  · intro hmiss
    rcases hmiss with hm | hm
    · rw [hm] at hstep
      rcases hj : findObjectByKind st.world "stone" Option.none with _ | j
      all_goals rw [hj] at hstep; dsimp only at hstep; rw [hstep]; exact ⟨rfl, rfl⟩
    · rw [hm] at hstep
      rcases hi : findObjectByKind st.world "wood" Option.none with _ | i
      all_goals rw [hi] at hstep; dsimp only at hstep; rw [hstep]; exact ⟨rfl, rfl⟩

/-- Claim C2 (witness): the amended theorem applied to the concrete world
holding one `wood` (`w1`) and one `stone` (`s1`): combining them removes
both and creates exactly the one combined object. -/
theorem c2_combine_atomicity_witness :
    (execute 1 "Eve" "WORLD: COMBINE wood AND stone INTO hammer" woodStoneSt).1.world.objects =
        alErase (alErase woodStoneSt.world.objects "w1") "s1" ++
          [(freshOid woodStoneSt.fresh,
            ("kind", PVal.s "hammer") ::
              [("creator", PVal.s "Eve"), ("turn", PVal.i woodStoneSt.world.tick),
               ("components", PVal.olist
                 [kindOpt [("kind", PVal.s "wood"), ("creator", PVal.s "Eve")],
                  kindOpt [("kind", PVal.s "stone"), ("creator", PVal.s "Adam")]]),
               ("combined_from", PVal.slist ["w1", "s1"])])] ∧
    (execute 1 "Eve" "WORLD: COMBINE wood AND stone INTO hammer" woodStoneSt).2.2 =
      Status.ok :=
  (c2_combine_atomicity "Eve" woodStoneSt (by decide)).1 "w1" "s1"
    [("kind", PVal.s "wood"), ("creator", PVal.s "Eve")]
    [("kind", PVal.s "stone"), ("creator", PVal.s "Adam")]
    (by decide) (by decide) (by decide) (by decide) (by decide)

/-- The CREATE branch on `["hammer"]`, reduced to the guard decision on
the creator's existing count. -/
theorem doCreate_hammer_reduce (sp : String) (st : ExecSt) :
    doCreate sp ["hammer"] st =
      (if 3 ≤ createdCount st.world "hammer" sp then
        (st,
         [sp ++ " already has " ++ toString (createdCount st.world "hammer" sp) ++
            " " ++ "hammer" ++
            "s. Consider creating something different or upgrading existing ones."],
         Ctl.ret)
      else
        ({ st with
            world := st.world.add_object (freshOid st.fresh) "hammer"
              [("creator", PVal.s sp), ("turn", PVal.i st.world.tick)]
            fresh := st.fresh + 1 },
         (if 2 ≤ createdCount st.world "hammer" sp then
            [sp ++ " already has " ++ toString (createdCount st.world "hammer" sp) ++
               " " ++ "hammer" ++ "s. Consider IF statements to avoid duplicates."]
          else []) ++
           [sp ++ " created " ++ "hammer" ++ " (id=" ++ freshOid st.fresh ++ ")"],
         Ctl.next)) := rfl

/-- Claim C7: the duplicate-creation guard. With exactly 2 existing
`hammer` objects by the same creator, a further `CREATE hammer` emits the
warning event and still creates the object; with 3 or more, the CREATE is
rejected — the returned state is exactly the input state, no object is
added. Stated over an arbitrary world with no macro verb shadowing
`CREATE`. -/
theorem c7_duplicate_creation_guard (sp : String) (st : ExecSt)
    (hverb : alGet st.world.verbs "CREATE" = Option.none) :
    (createdCount st.world "hammer" sp = 2 →
      execute 1 sp "WORLD: CREATE hammer" st =
        ({ st with
            world := st.world.add_object (freshOid st.fresh) "hammer"
              [("creator", PVal.s sp), ("turn", PVal.i st.world.tick)]
            fresh := st.fresh + 1 },
         [sp ++ " already has " ++ toString (2 : Nat) ++ " " ++ "hammer" ++
            "s. Consider IF statements to avoid duplicates.",
          sp ++ " created " ++ "hammer" ++ " (id=" ++ freshOid st.fresh ++ ")"],
         Status.ok)) ∧
    (3 ≤ createdCount st.world "hammer" sp →
      execute 1 sp "WORLD: CREATE hammer" st =
        (st,
         [sp ++ " already has " ++ toString (createdCount st.world "hammer" sp) ++
            " " ++ "hammer" ++
            "s. Consider creating something different or upgrading existing ones."],
         Status.ok)) := by
  have hstep : execute 1 sp "WORLD: CREATE hammer" st =
      (match execLine (execute 0) sp "WORLD: CREATE hammer" st with
       | (st', evts, Ctl.next) => (st', [] ++ evts, Status.ok)
       | (st', evts, Ctl.ret) => (st', [] ++ evts, Status.ok)
       | (st', evts, Ctl.raise m) => (st', [] ++ evts, Status.exn m)
       | (st', evts, Ctl.deep) => (st', [] ++ evts, Status.deep)) := rfl
  rw [execLine_create_hammer (execute 0) sp st hverb, doCreate_hammer_reduce] at hstep
  constructor
  · intro hcnt
    rw [hcnt] at hstep
    norm_num at hstep
    rw [hstep]
  · intro hcnt
    rw [if_pos hcnt] at hstep
    dsimp only at hstep
    rw [hstep]
    simp

/-- Claim C7 (witness): the guard at the concrete worlds with exactly 2,
respectively 3, Eve-created hammers: the 3rd create warns and creates,
the 4th is rejected leaving the state untouched. -/
theorem c7_duplicate_creation_guard_witness :
    (execute 1 "Eve" "WORLD: CREATE hammer" twoHammerSt).1.world.objects.length = 3 ∧
    execute 1 "Eve" "WORLD: CREATE hammer" threeHammerSt =
      (threeHammerSt,
       ["Eve" ++ " already has " ++ toString (createdCount threeHammerWorld "hammer" "Eve") ++
          " " ++ "hammer" ++
          "s. Consider creating something different or upgrading existing ones."],
       Status.ok) :=
  ⟨by rw [(c7_duplicate_creation_guard "Eve" twoHammerSt (by decide)).1 (by decide)]; decide,
   (c7_duplicate_creation_guard "Eve" threeHammerSt (by decide)).2 (by decide)⟩

/-- Claim C10: the duplicate-creation rejection is the only early return.
When a `CREATE hammer` line is rejected (3+ existing same-kind objects by
the actor), `execute`'s line loop returns immediately: whatever lines
follow, the result is exactly the input state with the single rejection
event — no further events, no mutations. By contrast a failing
unknown-directive line (`FLY`) appends its event and continues with the
remaining lines. Stated for any recursion budget, any trailing lines and
any world with no macro verbs named `CREATE`/`FLY`. -/
theorem c10_create_reject_early_return (sp : String) (n : Nat)
    (rest : List String) (st : ExecSt)
    (hC : alGet st.world.verbs "CREATE" = Option.none)
    (hcnt : 3 ≤ createdCount st.world "hammer" sp)
    (hF : alGet st.world.verbs "FLY" = Option.none) :
    execLines (execute n) sp ("WORLD: CREATE hammer" :: rest) st [] =
      (st,
       [sp ++ " already has " ++ toString (createdCount st.world "hammer" sp) ++
          " " ++ "hammer" ++
          "s. Consider creating something different or upgrading existing ones."],
       Status.ok) ∧
    execLines (execute n) sp ("WORLD: FLY now" :: rest) st [] =
      ((execLines (execute n) sp rest st []).1,
       (sp ++ " issued unknown directive: " ++ "FLY") ::
         (execLines (execute n) sp rest st []).2.1,
       (execLines (execute n) sp rest st []).2.2) := by
  constructor
  · simp only [execLines]
    rw [execLine_create_hammer (execute n) sp st hC, doCreate_hammer_reduce, if_pos hcnt]
    dsimp only
    simp
  · simp only [execLines]
    rw [execLine_fly (execute n) sp st hF]
    dsimp only
    rw [execLines_acc]
    simp

/-- Claim C10 (witness): at the concrete three-hammer world, a rejected
CREATE followed by a MOVE line yields only the rejection event and the
untouched state (the MOVE is skipped). -/
theorem c10_create_reject_early_return_witness :
    execLines (execute 1) "Eve"
        ("WORLD: CREATE hammer" :: ["WORLD: MOVE TO forest"]) threeHammerSt [] =
      (threeHammerSt,
       ["Eve" ++ " already has " ++ toString (createdCount threeHammerWorld "hammer" "Eve") ++
          " " ++ "hammer" ++
          "s. Consider creating something different or upgrading existing ones."],
       Status.ok) :=
  (c10_create_reject_early_return "Eve" 1 ["WORLD: MOVE TO forest"] threeHammerSt
    (by decide) (by decide) (by decide)).1

/-- A list ending in `a` has at most one distinct element iff it is
constantly `a`. -/
theorem dedup_length_le_one_iff (l : List String) (a : String)
    (hlast : l.getLast? = some a) :
    l.dedup.length ≤ 1 ↔ l = List.replicate l.length a := by
  have hmem : a ∈ l := by
    obtain ⟨hne, hx⟩ := List.mem_getLast?_eq_getLast (x := a) (l := l) hlast
    exact hx ▸ List.getLast_mem hne
  constructor
  · intro hle
    rw [List.eq_replicate_length]
    intro b hb
    have hbd : b ∈ l.dedup := List.mem_dedup.mpr hb
    have had : a ∈ l.dedup := List.mem_dedup.mpr hmem
    rcases hd : l.dedup with _ | ⟨c, cs⟩
    · rw [hd] at hbd; cases hbd
    · rw [hd] at hbd had
      rw [hd] at hle
      simp only [List.length_cons] at hle
      have hcs : cs = [] := List.eq_nil_of_length_eq_zero (by omega)
      subst hcs
      simp only [List.mem_singleton] at hbd had
      rw [hbd, had]
  · intro hrep
    by_cases hnil : l = []
    · subst hnil; simp
    · have hlen : l.length ≠ 0 := fun h => hnil (List.eq_nil_of_length_eq_zero h)
      conv_lhs => rw [hrep]
      rw [List.replicate_dedup hlen]
      simp

/-- Dropping strictly fewer elements than the length preserves the last
element. -/
theorem getLast?_drop_of_lt {α : Type} (l : List α) (k : Nat) (hk : k < l.length) :
    (l.drop k).getLast? = l.getLast? := by
  conv_rhs => rw [← List.take_append_drop k l]
  rw [List.getLast?_append_of_ne_nil]
  intro hnil
  have hld : (l.drop k).length = l.length - k := List.length_drop k l
  rw [hnil] at hld
  simp only [List.length_nil] at hld
  omega

/-- The updated history produced by the loop detector always ends with
the action just appended. -/
theorem detectLoopHist_fst_getLast (hist : List String) (act : String) :
    (detectLoopHist hist act).1.getLast? = some act := by
  have hbase : (hist ++ [act]).getLast? = some act := List.getLast?_concat _
  by_cases hinfo : (infoMarkers.any fun m => strContains act m) = true
  all_goals
    simp only [detectLoopHist, hinfo, if_true, if_false]
    by_cases h12 : (hist ++ [act]).length > 12
    · simp only [h12, if_true]
      rcases hist with _ | ⟨x, hs⟩
      · simp at h12
      · simp
    · simp only [h12, if_false]
      exact hbase

/-- Claim C3 (counterexample): `Adam`'s history has 9 entries whose last
5 are the identical effectful directive; issuing it a 6th consecutive
time brings the history to 10 entries with the last 6 identical — the
claim says the loop detector must flag this, but it returns `false`
(the detector requires the last 8, not 6, to be identical). -/
theorem c3_counterexample :
    (detectLoopHist ((alGet loopHist9World.agent_action_history "Adam").getD [])
        "WORLD: CREATE hammer").1.length = 10 ∧
    (detectLoopHist ((alGet loopHist9World.agent_action_history "Adam").getD [])
        "WORLD: CREATE hammer").1.drop 4 =
      List.replicate 6 "WORLD: CREATE hammer" ∧
    (loopHist9World.detect_agent_loops "Adam" "WORLD: CREATE hammer").2 = false :=
  ⟨by decide, by decide, by decide⟩

/-- Claim C3 (amended): for an effectful directive (one matching no
informational marker) and a post-append history of at least 10 entries,
the loop detector flags the participant iff the last 8 history entries
all equal the directive — i.e. only the 8th consecutive identical
effectful directive is flagged; 5 or 6 consecutive identical issues
preceded by different actions are not. -/
theorem c3_loop_detection_threshold (w : World) (agent act : String)
    (hinfo : (infoMarkers.any fun m => strContains act m) = false)
    (hlen : 10 ≤ (detectLoopHist ((alGet w.agent_action_history agent).getD []) act).1.length) :
    ((w.detect_agent_loops agent act).2 = true ↔
      (detectLoopHist ((alGet w.agent_action_history agent).getD []) act).1.drop
          ((detectLoopHist ((alGet w.agent_action_history agent).getD []) act).1.length - 8) =
        List.replicate 8 act) := by
  set hist := (alGet w.agent_action_history agent).getD [] with hhist
  have hflag : (w.detect_agent_loops agent act).2 = (detectLoopHist hist act).2 := rfl
  rw [hflag]
  set h := (detectLoopHist hist act).1 with hh
  have hsnd : (detectLoopHist hist act).2 =
      (if 10 ≤ h.length then
        decide ((h.drop (h.length - 8)).dedup.length ≤ 1) &&
          decide (6 ≤ (h.drop (h.length - 8)).length)
      else false) := by
    rw [hh]
    simp only [detectLoopHist, hinfo]
    simp
  rw [hsnd, if_pos hlen]
  have hreclen : (h.drop (h.length - 8)).length = 8 := by
    rw [List.length_drop]
    omega
  have hlast : (h.drop (h.length - 8)).getLast? = some act := by
    rw [getLast?_drop_of_lt _ _ (by omega), hh]
    exact detectLoopHist_fst_getLast hist act
  rw [Bool.and_eq_true, decide_eq_true_iff, decide_eq_true_iff]
  rw [dedup_length_le_one_iff _ act hlast, hreclen]
  constructor
  · intro hpair
    exact hpair.1
  · intro h1
    exact ⟨h1, by omega⟩

/-- Claim C3 (witness): the amended characterization applied at the
concrete 9-entry history: the flag is false exactly because the last 8
entries are not all the issued directive. -/
theorem c3_loop_detection_threshold_witness :
    ((loopHist9World.detect_agent_loops "Adam" "WORLD: CREATE hammer").2 = true ↔
      (detectLoopHist ((alGet loopHist9World.agent_action_history "Adam").getD [])
          "WORLD: CREATE hammer").1.drop
          ((detectLoopHist ((alGet loopHist9World.agent_action_history "Adam").getD [])
              "WORLD: CREATE hammer").1.length - 8) =
        List.replicate 8 "WORLD: CREATE hammer") :=
  c3_loop_detection_threshold loopHist9World "Adam" "WORLD: CREATE hammer"
    (by decide) (by decide)

/-- Filtering twice with the same predicate equals filtering once. -/
theorem filter_self_idem {α : Type} (p : α → Bool) (l : List α) :
    (l.filter p).filter p = l.filter p := by
  rw [List.filter_eq_self]
  intro a ha
  exact (List.mem_filter.mp ha).2

/-- Claim C4 (counterexample): `update_environment` is not idempotent at
a fixed tick. At the fresh default world (tick 0, a regeneration tick,
`stone = 80`, `food = 60`) with no weather change, a second call
regenerates resources again (`stone` reaches 90 instead of 85), so the
twice-updated world differs from the once-updated one. -/
theorem c4_counterexample :
    ((defaultWorld.update_environment 1 0).1.update_environment 1 0).1 ≠
      (defaultWorld.update_environment 1 0).1 := by decide

/-- Claim C4 (amended): event expiry is idempotent at a fixed tick — a
second `update_environment` call leaves `active_events` unchanged for
every world and every weather sample — and away from the regeneration
cadence (tick not a multiple of 5) with zero scarcity pressure and no
weather change the whole update is idempotent; but on regeneration ticks
each call adds +5 (cap 100) to every resource below 100 again, so the
full update is not idempotent (counterexample above). -/
theorem c4_update_environment_idempotence (w : World) (roll : ℚ) (pick : Nat) :
    (((w.update_environment roll pick).1.update_environment roll pick).1.environment.active_events =
      (w.update_environment roll pick).1.environment.active_events) ∧
    (¬ w.tick % 5 = 0 → w.environment.scarcity_pressure = 0 → ¬ roll < mkRat 1 10 →
      ((w.update_environment roll pick).1.update_environment roll pick).1 =
        (w.update_environment roll pick).1) := by
  constructor
  · simp only [World.update_environment]
    exact filter_self_idem _ _
  · intro htick hscar hroll
    simp only [World.update_environment, htick, hscar, hroll, if_neg, if_pos]
    simp [filter_self_idem]
    intro hc
    exact absurd hc htick

/-- Claim C4 (witness): full idempotence at the concrete world at tick 3
with zero scarcity pressure and a weather roll of 1. -/
theorem c4_update_environment_idempotence_witness :
    ((tick3World.update_environment 1 0).1.update_environment 1 0).1 =
      (tick3World.update_environment 1 0).1 :=
  (c4_update_environment_idempotence tick3World 1 0).2 (by decide) (by decide) (by decide)

/-- Totality of the lexicographic character-list order. -/
theorem listLe_total (as bs : List Char) : listLe as bs = true ∨ listLe bs as = true := by
  induction as generalizing bs with
  | nil => left; rfl
  | cons a as ih =>
      cases bs with
      | nil => right; rfl
      | cons b bs =>
          by_cases hab : a = b
          · subst hab
            simp only [listLe, if_pos rfl]
            exact ih bs
          · have hba : ¬ b = a := fun h => hab h.symm
            simp only [listLe, if_neg hab, if_neg hba, decide_eq_true_iff]
            have htn : a.toNat ≠ b.toNat := fun h => hab (Char.eq_of_val_eq (UInt32.ext h))
            omega

/-- Antisymmetry of the lexicographic character-list order. -/
theorem listLe_antisymm (as bs : List Char) (h1 : listLe as bs = true)
    (h2 : listLe bs as = true) : as = bs := by
  induction as generalizing bs with
  | nil =>
      cases bs with
      | nil => rfl
      | cons b bs => simp [listLe] at h2
  | cons a as ih =>
      cases bs with
      | nil => simp [listLe] at h1
      | cons b bs =>
          by_cases hab : a = b
          · subst hab
            simp only [listLe, if_pos rfl] at h1 h2
            rw [ih bs h1 h2]
          · have hba : ¬ b = a := fun h => hab h.symm
            simp only [listLe, if_neg hab, if_neg hba, decide_eq_true_iff] at h1 h2
            omega

/-- `tuple(sorted(...))` does not depend on the order of the two names. -/
theorem sortPair_comm (p q : String) : sortPair p q = sortPair q p := by
  by_cases hpq : strLe p q = true
  · by_cases hqp : strLe q p = true
    · have hp : p = q := by
        have hd : p.data = q.data := listLe_antisymm _ _ hpq hqp
        cases p; cases q; simp only at hd; rw [hd]
      subst hp; rfl
    · simp [sortPair, hpq, hqp]
  · have hqp : strLe q p = true := by
      rcases listLe_total p.data q.data with h | h
      · exact absurd h hpq
      · exact h
    simp [sortPair, hpq, hqp]

/-- Claim C6: reciprocal matching. For distinct participants `a` and `b`,
draining `request(a→b, tick 5)` and `request(b→a, tick 6)` spawns exactly
one child for the pair; with ticks 5 and 8 (gap above the tolerance) no
child is spawned; and once the pair has matched, re-issuing both
reciprocal requests spawns no second child for that unordered pair. -/
theorem c6_reciprocal_match (a b : String) (hab : a ≠ b) :
    (BreedingManager.step ⟨[], []⟩ [⟨a, b, 5⟩, ⟨b, a, 6⟩]).2 = [(a, b, 6)] ∧
    (BreedingManager.step ⟨[], []⟩ [⟨a, b, 5⟩, ⟨b, a, 8⟩]).2 = [] ∧
    (BreedingManager.step (BreedingManager.step ⟨[], []⟩ [⟨a, b, 5⟩, ⟨b, a, 6⟩]).1
        [⟨a, b, 7⟩, ⟨b, a, 7⟩]).2 = [] := by
  have hpair : ((a, b) : String × String) ≠ (b, a) := by
    intro h
    injection h with h1 h2
    exact hab h1
  have hpair' : ((b, a) : String × String) ≠ (a, b) := fun h => hpair h.symm
  have hstep1 : BreedingManager.step ⟨[], []⟩ [⟨a, b, 5⟩, ⟨b, a, 6⟩] =
      (⟨[], [sortPair a b]⟩, [(a, b, 6)]) := by
    simp [BreedingManager.step, breedDrain, breedMatch, alSet, alGet, alErase,
      hpair, hpair']
  refine ⟨by rw [hstep1], ?_, ?_⟩
  · simp [BreedingManager.step, breedDrain, breedMatch, alSet, alGet, alErase,
      hpair, hpair']
  · rw [hstep1]
    simp [BreedingManager.step, breedDrain, breedMatch, sortPair_comm b a]

/-- Claim C6 (witness): the reciprocal-match behaviour at the concrete
pair `A`, `B`. -/
theorem c6_reciprocal_match_witness :
    (BreedingManager.step ⟨[], []⟩ [⟨"A", "B", 5⟩, ⟨"B", "A", 6⟩]).2 = [("A", "B", 6)] ∧
    (BreedingManager.step ⟨[], []⟩ [⟨"A", "B", 5⟩, ⟨"B", "A", 8⟩]).2 = [] ∧
    (BreedingManager.step
        (BreedingManager.step ⟨[], []⟩ [⟨"A", "B", 5⟩, ⟨"B", "A", 6⟩]).1
        [⟨"A", "B", 7⟩, ⟨"B", "A", 7⟩]).2 = [] :=
  c6_reciprocal_match "A" "B" (by decide)

/-- Claim C8 (counterexample): no world save occurs at loop termination.
A run of `loop(max_ticks = 1)` from a fresh world with the default
`SAVE_EVERY = 10` terminates after tick 1 having performed no save at
all — the loop's termination path closes the log and cancels tasks but
never saves. -/
theorem c8_counterexample :
    (loopPersist 10 1 ⟨0, []⟩).saves = [] ∧ (loopPersist 10 1 ⟨0, []⟩).tick = 1 :=
  ⟨by decide, by decide⟩

/-- Claim C8 (amended): the Scheduler persists World State exactly on the
fixed cadence. A run of `loop(max_ticks = n)` from any state advances the
tick by `n` and saves at precisely those ticks among
`tick+1, …, tick+n` that are multiples of `SAVE_EVERY` — there is no
additional unconditional save at loop termination. -/
theorem c8_save_cadence (saveEvery n : Nat) (s : SchedSt) :
    (loopPersist saveEvery n s).tick = s.tick + n ∧
    (loopPersist saveEvery n s).saves =
      s.saves ++ ((List.range n).map (fun k => s.tick + k + 1)).filter
        (fun t => t % saveEvery == 0) := by
  induction n generalizing s with
  | zero => simp [loopPersist]
  | succ n ih =>
      obtain ⟨ih1, ih2⟩ := ih (runTickPersist saveEvery s)
      constructor
      · rw [loopPersist, ih1]
        simp only [runTickPersist]
        omega
      · rw [loopPersist, ih2]
        simp only [runTickPersist]
        rw [List.range_succ_eq_map, List.map_cons, List.map_map, List.filter_cons]
        simp only [Function.comp_apply, Nat.add_zero]
        have hfun : ((fun k => s.tick + k + 1) ∘ fun k => k + 1) =
            (fun k => s.tick + 1 + k + 1) := by
          funext k
          simp only [Function.comp_apply]
          omega
        rw [hfun]
        by_cases hs : ((s.tick + 1) % saveEvery == 0) = true
        · rw [if_pos hs, if_pos hs]
          simp
        · rw [if_neg hs, if_neg hs]
          simp

/-- Serializing a non-datetime value is the identity. -/
theorem serializePVal_id (v : PVal) (h : v.isDt = false) : serializePVal v = v := by
  cases v <;> first | rfl | simp [PVal.isDt] at h

/-- Serializing a datetime-free record is the identity. -/
theorem serializeObj_id (o : Obj) (h : o.all (fun q => !q.2.isDt) = true) :
    serializeObj o = o := by
  induction o with
  | nil => rfl
  | cons hd tl ih =>
      simp only [List.all_cons, Bool.and_eq_true, Bool.not_eq_true'] at h
      simp only [serializeObj, List.map_cons]
      have hd2 : serializePVal hd.2 = hd.2 := serializePVal_id _ h.1
      rw [hd2]
      have htl : serializeObj tl = tl := ih (by
        simp only [List.all_eq_true] at h ⊢
        exact fun x hx => h.2 x hx)
      simp only [serializeObj] at htl
      rw [htl]

/-- Serializing a datetime-free record table is the identity. -/
theorem serializeObjs_id (l : List (String × Obj))
    (h : l.all (fun p => p.2.all (fun q => !q.2.isDt)) = true) :
    l.map (fun p => (p.1, serializeObj p.2)) = l := by
  induction l with
  | nil => rfl
  | cons hd tl ih =>
      simp only [List.all_cons, Bool.and_eq_true] at h
      simp only [List.map_cons]
      rw [ih h.2, serializeObj_id _ h.1]

/-- Claim C9 (counterexample): the round-trip is not the identity for
every World State. A world whose object carries a `datetime`-valued
property serializes that value to its ISO-8601 string (`_dt_handler`),
which loads back as a string, so the loaded world's objects differ from
the original's. -/
theorem c9_counterexample :
    (World.load (some (World.save dtWorld))).objects ≠ dtWorld.objects ∧
    (World.load (some (World.save dtWorld))).tick = dtWorld.tick :=
  ⟨by decide, by decide⟩

/-- Claim C9 (amended): for every World State none of whose stored object
or participant properties is a `datetime` value, saving and loading the
snapshot returns a world equal to the original in every field (tick,
objects, participants, macro-verbs, environment, action history, focus
state); and loading a missing file yields the fresh default World rather
than an error. Worlds containing `datetime` properties come back with
those values replaced by their ISO strings (counterexample above). -/
theorem c9_snapshot_roundtrip (w : World) (h : w.dtFree = true) :
    World.load (some (World.save w)) = w ∧ World.load Option.none = defaultWorld := by
  refine ⟨?_, rfl⟩
  unfold World.dtFree at h
  rw [Bool.and_eq_true] at h
  simp only [World.load, World.save, Option.getD]
  rw [serializeObjs_id _ h.1, serializeObjs_id _ h.2]

/-- Claim C9 (witness): the round-trip at the concrete two-hammer world. -/
theorem c9_snapshot_roundtrip_witness :
    World.load (some (World.save twoHammerWorld)) = twoHammerWorld ∧
    World.load Option.none = defaultWorld :=
  c9_snapshot_roundtrip twoHammerWorld (by decide)
